import Mathlib

/-!
Formal model of the client-side Portfolio/Watchlist state-synchronization
layer of the dashboard repository: the two context providers
(`WatchlistProvider`, `PortfolioProvider`), their localStorage mock-data
fallback, the auto-selection effect, and the base HTTP client
(`ApiClient.request` / `ApiClient.handleError`).

Embedding conventions:
* Asynchronous operations are sequentialized: each remote call is modelled
  by an explicit response parameter (the value the `await` would produce),
  and state updates are explicit state passing.
* `localStorage` snapshots (`mockWatchlistData` / `mockPortfolioData`) are a
  `CacheVal` field carried in the manager state; a corrupted (unparseable)
  snapshot is a distinguished constructor.
* The clock (`Date.now()`, `new Date().toISOString()`) is passed in as
  explicit parameters `nowMs` / `nowIso`.
* Each operation additionally emits an event trace (`Ev`) recording every
  `setLoading` write and every remote call it issues.
* JavaScript truthiness on strings (`s || default`) is modelled by `jsOr`:
  the empty string is the only falsy string that can arise here.
* Objects on the wire are modelled by structures carrying the fields the
  embedded logic reads; fields the logic never touches are omitted.
-/

namespace StockDash

/-- JavaScript `a || b` for strings: the empty string falls through. -/
def jsOr (s d : String) : String := if s = "" then d else s

/-- JavaScript `a || b || c` chain starting from an optional field. -/
def jsOrOpt (o : Option String) (d : String) : String :=
  match o with
  | some s => jsOr s d
  | none => d

/-- Error payload of a failed service envelope (`response.error`). -/
structure SvcError where
  message : String
deriving Repr, DecidableEq

/-- Uniform `{success, data | error}` envelope returned by the service layer. -/
inductive ApiResp (α : Type) where
  | success (data : α)
  | failure (e : SvcError)
deriving Repr, DecidableEq

/-- Result envelope a provider operation hands back to the UI
(`{success:true,data}` or `{success:false,error:{message}}`). -/
inductive OpResult (α : Type) where
  | ok (data : α)
  | fail (message : String)
deriving Repr, DecidableEq

/-- A `localStorage` slot holding a serialized snapshot: missing, present but
unparseable, or parseable. -/
inductive CacheVal (σ : Type) where
  | absent
  | corrupt
  | stored (snap : σ)
deriving Repr, DecidableEq

/-- The `safeParseMockData` helper: returns the parsed snapshot (or `none`)
together with the slot afterwards — an unparseable snapshot is removed
(`localStorage.removeItem`). -/
def safeParseMockData {σ : Type} (c : CacheVal σ) : Option σ × CacheVal σ :=
  match c with
  | .absent => (none, .absent)
  | .corrupt => (none, .absent)
  | .stored snap => (some snap, .stored snap)

/-- Shape of a collection response body: either a wrapping object
(`{watchlists:[...]}`, `{portfolios:[...]}` …), a bare array, or a nullish
body; the providers normalize all three via `data.xs || data || []`. -/
inductive ListPayload (α : Type) where
  | wrapped (xs : List α)
  | plain (xs : List α)
  | nullish
deriving Repr, DecidableEq

/-- The `response.data.xs || response.data || []` normalization. -/
def ListPayload.extract {α : Type} : ListPayload α → List α
  | .wrapped xs => xs
  | .plain xs => xs
  | .nullish => []

/-- Event trace entry: a write to the `loading` flag or an outgoing remote
call. -/
inductive Ev where
  | setLoading (b : Bool)
  | remoteCall (endpoint : String)
deriving Repr, DecidableEq

/-- Projection of an event trace onto the values written to `loading`. -/
def loadingWrites (evs : List Ev) : List Bool :=
  evs.filterMap (fun e =>
    match e with
    | .setLoading b => some b
    | _ => none)

/-! ## Watchlist data model -/

/-- A watchlist collection item (fields read by the embedded logic). -/
structure Watchlist where
  id : String
  name : String
deriving Repr, DecidableEq

/-- A watchlist child item; the fields are exactly those the provider
fabricates in the `addStock` fallback. -/
structure WItem where
  id : String
  watchlistId : String
  symbol : String
  name : String
  price : ℚ
  change : ℚ
  changePercent : ℚ
  notes : String
  addedAt : String
deriving Repr, DecidableEq

/-- The default mock watchlists from `src/utils/mockData.js`. -/
def mockWatchlists : List Watchlist :=
  [⟨"watchlist-1", "Tech Stocks"⟩, ⟨"watchlist-2", "High Dividend"⟩]

/-- The default mock watchlist items from `src/utils/mockData.js`. -/
def mockWatchlistItems : List WItem :=
  [{ id := "watch-1", watchlistId := "watchlist-1", symbol := "META",
     name := "Meta Platforms Inc.", price := 475.23, change := 8.45,
     changePercent := 1.81, notes := "Watching for entry point",
     addedAt := "2024-10-15T00:00:00.000Z" },
   { id := "watch-2", watchlistId := "watchlist-1", symbol := "NFLX",
     name := "Netflix Inc.", price := 632.18, change := -5.32,
     changePercent := -0.83, notes := "Strong Q3 earnings",
     addedAt := "2024-10-20T00:00:00.000Z" },
   { id := "watch-3", watchlistId := "watchlist-1", symbol := "AMD",
     name := "Advanced Micro Devices", price := 142.67, change := 3.21,
     changePercent := 2.30, notes := "AI chip competition",
     addedAt := "2024-10-25T00:00:00.000Z" }]

/-- Parsed shape of the `mockWatchlistData` snapshot; either field may be
missing from a parsed object. -/
structure WSnapshot where
  watchlists : Option (List Watchlist)
  items : Option (List WItem)
deriving Repr, DecidableEq

/-- Value an error stored via `setError` can take: a plain message string
(`setError(err.message)`) or a service error object (`setError(response.error)`). -/
inductive ErrVal where
  | msg (s : String)
  | api (e : SvcError)
deriving Repr, DecidableEq

/-- Shape of a `getWithItems` detail response body:
`{watchlist: ..., items: [...]}` or the watchlist object itself (the
provider normalizes via `data.watchlist || data` and `data.items || []`). -/
inductive DetailPayload where
  | nested (watchlist : Watchlist) (items : List WItem)
  | flat (watchlist : Watchlist)
deriving Repr, DecidableEq

/-- The `response.data.watchlist || response.data` normalization. -/
def DetailPayload.watchlist : DetailPayload → Watchlist
  | .nested w _ => w
  | .flat w => w

/-- The `response.data.items || []` normalization. -/
def DetailPayload.items : DetailPayload → List WItem
  | .nested _ its => its
  | .flat _ => []

/-- State owned by `WatchlistProvider`, plus the `mockWatchlistData`
localStorage slot it reads and clears. -/
structure WState where
  watchlists : List Watchlist
  currentWatchlist : Option Watchlist
  items : List WItem
  loading : Bool
  error : Option ErrVal
  cache : CacheVal WSnapshot
deriving Repr, DecidableEq

/-! ## Watchlist operations -/

/-- `fetchWatchlists`: on success replaces the collection; on failure reads
the snapshot, uses its watchlists when present, otherwise falls back to the
built-in `mockWatchlists`, and records `err.message`. -/
def fetchWatchlists (resp : ApiResp (ListPayload Watchlist)) (s : WState) :
    WState × List Ev :=
  let s1 : WState := { s with loading := true, error := none }
  let evs : List Ev := [.setLoading true, .remoteCall "watchlistService.getAll"]
  let s2 : WState :=
    match resp with
    | .success d => { s1 with watchlists := d.extract }
    | .failure e =>
        let m := jsOr e.message "Failed to fetch watchlists"
        let pc := safeParseMockData s1.cache
        match pc.1 with
        | some snap =>
            match snap.watchlists with
            | some ws =>
                { s1 with watchlists := ws, error := some (.msg m), cache := pc.2 }
            | none =>
                { s1 with watchlists := mockWatchlists, error := some (.msg m),
                          cache := pc.2 }
        | none =>
            { s1 with watchlists := mockWatchlists, error := some (.msg m),
                      cache := pc.2 }
  ({ s2 with loading := false }, evs ++ [.setLoading false])

/-- `selectWatchlist`: on success sets the current watchlist and its items;
on failure reads the snapshot (requiring both fields), otherwise falls back
to the built-in mock data, filtering items by `watchlistId`. -/
def selectWatchlist (resp : ApiResp DetailPayload) (watchlistId : String)
    (s : WState) : WState × List Ev :=
  let s1 : WState := { s with loading := true, error := none }
  let evs : List Ev := [.setLoading true, .remoteCall "watchlistService.getWithItems"]
  let s2 : WState :=
    match resp with
    | .success d =>
        { s1 with currentWatchlist := some d.watchlist, items := d.items }
    | .failure e =>
        let m := jsOr e.message "Failed to fetch watchlist items"
        let pc := safeParseMockData s1.cache
        let fromLists (ws : List Watchlist) (its : List WItem) : WState :=
          { s1 with
              currentWatchlist := ws.find? (fun w => w.id == watchlistId),
              items := its.filter (fun it => it.watchlistId == watchlistId),
              error := some (.msg m), cache := pc.2 }
        match pc.1 with
        | some snap =>
            match snap.watchlists, snap.items with
            | some ws, some its => fromLists ws its
            | some _, none => fromLists mockWatchlists mockWatchlistItems
            | none, _ => fromLists mockWatchlists mockWatchlistItems
        | none => fromLists mockWatchlists mockWatchlistItems
  ({ s2 with loading := false }, evs ++ [.setLoading false])

/-- Output of a watchlist operation that returns an envelope to the UI. -/
structure WOut (α : Type) where
  state : WState
  evs : List Ev
  result : OpResult α
deriving Repr, DecidableEq

/-- The locally fabricated record `addStock` appends on remote failure:
clock-derived id, uppercased symbol, fixed placeholder quote fields. -/
def fabricatedItem (symbol notes : String) (cw : Watchlist) (nowMs : Nat)
    (nowIso : String) : WItem :=
  { id := "item_" ++ toString nowMs, watchlistId := cw.id,
    symbol := symbol.toUpper, name := symbol.toUpper ++ " Inc.",
    price := 100.00, change := 0.00, changePercent := 0.00,
    notes := notes, addedAt := nowIso }

/-- `addStock`: guarded on a selected watchlist; on remote success re-selects
the parent; on remote failure fabricates a local item (uppercased symbol,
clock-derived id, fixed placeholder quote fields), appends it to `items`,
and still returns a success envelope. It never writes `error`. -/
def addStock (symbol notes : String) (addResp : ApiResp WItem)
    (refreshResp : ApiResp DetailPayload) (nowMs : Nat) (nowIso : String)
    (s : WState) : WOut WItem :=
  match s.currentWatchlist with
  | none => ⟨s, [], .fail "No watchlist selected"⟩
  | some cw =>
      let s1 : WState := { s with loading := true }
      let evs : List Ev := [.setLoading true, .remoteCall "watchlistService.addStock"]
      match addResp with
      | .success item =>
          let r := selectWatchlist refreshResp cw.id s1
          ⟨{ r.1 with loading := false }, evs ++ r.2 ++ [.setLoading false], .ok item⟩
      | .failure _ =>
          let newItem : WItem := fabricatedItem symbol notes cw nowMs nowIso
          ⟨{ s1 with items := s.items ++ [newItem], loading := false },
           evs ++ [.setLoading false], .ok newItem⟩

/-- `removeStock`: guarded on a selected watchlist; on remote success splices
the item out of local `items` without a re-fetch; on remote failure stores
the error object. -/
def removeStock (itemId : String) (resp : ApiResp Unit) (s : WState) :
    WOut Unit :=
  match s.currentWatchlist with
  | none => ⟨s, [], .fail "No watchlist selected"⟩
  | some _ =>
      let s1 : WState := { s with loading := true }
      let evs : List Ev := [.setLoading true, .remoteCall "watchlistService.removeStock"]
      match resp with
      | .success _ =>
          ⟨{ s1 with items := s1.items.filter (fun it => it.id != itemId),
                     loading := false },
           evs ++ [.setLoading false], .ok ()⟩
      | .failure e =>
          ⟨{ s1 with error := some (.api e), loading := false },
           evs ++ [.setLoading false], .fail e.message⟩

/-- `createWatchlist`: on remote success re-fetches the collection and, only
when the created id is present in the refreshed collection, selects it; on
failure stores the error object. (The un-awaited `selectWatchlist` call is
sequentialized.) -/
def createWatchlist (createResp : ApiResp Watchlist)
    (getAllResp : ApiResp (ListPayload Watchlist))
    (detailResp : ApiResp DetailPayload) (s : WState) : WOut Watchlist :=
  let s1 : WState := { s with loading := true }
  let evs : List Ev := [.setLoading true, .remoteCall "watchlistService.create"]
  match createResp with
  | .success w =>
      let r := fetchWatchlists getAllResp s1
      if r.1.watchlists.any (fun x => x.id == w.id) then
        let r2 := selectWatchlist detailResp w.id r.1
        ⟨{ r2.1 with loading := false }, evs ++ r.2 ++ r2.2 ++ [.setLoading false],
         .ok w⟩
      else
        ⟨{ r.1 with loading := false }, evs ++ r.2 ++ [.setLoading false], .ok w⟩
  | .failure e =>
      ⟨{ s1 with error := some (.api e), loading := false },
       evs ++ [.setLoading false], .fail e.message⟩

/-- `deleteWatchlist`: on remote success re-fetches the collection and, when
the deleted id equals the previously current id (captured at entry), clears
the selection and its items; on failure stores the error object. -/
def deleteWatchlist (watchlistId : String) (delResp : ApiResp Unit)
    (getAllResp : ApiResp (ListPayload Watchlist)) (s : WState) : WOut Unit :=
  let s1 : WState := { s with loading := true }
  let evs : List Ev := [.setLoading true, .remoteCall "watchlistService.delete"]
  match delResp with
  | .success _ =>
      let r := fetchWatchlists getAllResp s1
      let s3 : WState :=
        if s.currentWatchlist.map Watchlist.id = some watchlistId then
          { r.1 with currentWatchlist := none, items := [] }
        else r.1
      ⟨{ s3 with loading := false }, evs ++ r.2 ++ [.setLoading false], .ok ()⟩
  | .failure e =>
      ⟨{ s1 with error := some (.api e), loading := false },
       evs ++ [.setLoading false], .fail e.message⟩

/-- Condition of the auto-select effect:
`!currentWatchlist && watchlists.length > 0`. -/
def wAutoSelectFires (s : WState) : Bool :=
  s.currentWatchlist.isNone && !s.watchlists.isEmpty

/-- The auto-select `useEffect`: when no watchlist is current and the
collection is non-empty, invoke `selectWatchlist(watchlists[0].id)`. -/
def wAutoSelect (detailResp : ApiResp DetailPayload) (s : WState) :
    WState × List Ev :=
  match s.currentWatchlist, s.watchlists with
  | none, w :: _ => selectWatchlist detailResp w.id s
  | _, _ => (s, [])

/-- The `loadMockData` helper of `src/utils/mockData.js`: the value it writes
wholesale into the `mockWatchlistData` slot — always the fixed fixtures. -/
def loadMockDataW : CacheVal WSnapshot :=
  .stored { watchlists := some mockWatchlists, items := some mockWatchlistItems }

/-! ## Portfolio data model -/

/-- A portfolio collection item (fields read by the embedded logic). -/
structure Portfolio where
  id : String
  name : String
deriving Repr, DecidableEq

/-- A holding child item (fields read by the embedded logic). -/
structure Holding where
  id : String
  portfolioId : String
  symbol : String
deriving Repr, DecidableEq

/-- A transaction child item (fields read by the embedded logic). -/
structure Txn where
  id : String
  portfolioId : String
  symbol : String
deriving Repr, DecidableEq

/-- Parsed shape of the `mockPortfolioData` snapshot; any field may be
missing from a parsed object. -/
structure PSnapshot where
  portfolios : Option (List Portfolio)
  holdings : Option (List Holding)
  transactions : Option (List Txn)
deriving Repr, DecidableEq

/-- State owned by `PortfolioProvider`, plus the `mockPortfolioData`
localStorage slot it reads and clears. -/
structure PState where
  portfolios : List Portfolio
  currentPortfolio : Option Portfolio
  holdings : List Holding
  transactions : List Txn
  loading : Bool
  error : Option ErrVal
  cache : CacheVal PSnapshot
deriving Repr, DecidableEq

/-! ## Portfolio operations -/

/-- `fetchPortfolios`: on success replaces the collection; on failure reads
the snapshot and, when it holds portfolios, uses them without recording any
error; otherwise stores the error object and leaves the collection as it
was. There is no built-in default fixture fallback on this side. -/
def fetchPortfolios (resp : ApiResp (ListPayload Portfolio)) (s : PState) :
    PState × List Ev :=
  let s1 : PState := { s with loading := true, error := none }
  let evs : List Ev := [.setLoading true, .remoteCall "portfolioService.getAll"]
  let s2 : PState :=
    match resp with
    | .success d => { s1 with portfolios := d.extract }
    | .failure e =>
        let pc := safeParseMockData s1.cache
        match pc.1 with
        | some snap =>
            match snap.portfolios with
            | some ps => { s1 with portfolios := ps, cache := pc.2 }
            | none => { s1 with error := some (.api e), cache := pc.2 }
        | none => { s1 with error := some (.api e), cache := pc.2 }
  ({ s2 with loading := false }, evs ++ [.setLoading false])

/-- `selectPortfolio`: fetches the portfolio detail, then its holdings. On
detail failure it falls back to the snapshot only when all three snapshot
fields are present and the portfolio id is found there; otherwise it stores
the error object and returns early. Transactions are only populated on the
fallback path. -/
def selectPortfolio (pResp : ApiResp Portfolio)
    (hResp : ApiResp (ListPayload Holding)) (portfolioId : String)
    (s : PState) : PState × List Ev :=
  let s1 : PState := { s with loading := true, error := none }
  let evs : List Ev := [.setLoading true, .remoteCall "portfolioService.getById"]
  match pResp with
  | .failure e =>
      let pc := safeParseMockData s1.cache
      let s2 : PState := { s1 with cache := pc.2 }
      let s3 : PState :=
        match pc.1 with
        | some snap =>
            match snap.portfolios, snap.holdings, snap.transactions with
            | some ps, some hs, some ts =>
                match ps.find? (fun p => p.id == portfolioId) with
                | some p =>
                    { s2 with currentPortfolio := some p,
                              holdings := hs.filter (fun h => h.portfolioId == portfolioId),
                              transactions := ts.filter (fun t => t.portfolioId == portfolioId) }
                | none => { s2 with error := some (.api e) }
            | _, _, _ => { s2 with error := some (.api e) }
        | none => { s2 with error := some (.api e) }
      ({ s3 with loading := false }, evs ++ [.setLoading false])
  | .success p =>
      let s2 : PState := { s1 with currentPortfolio := some p }
      let evs2 : List Ev := evs ++ [.remoteCall "portfolioService.getHoldings"]
      let s3 : PState :=
        match hResp with
        | .success hd => { s2 with holdings := hd.extract }
        | .failure he => { s2 with error := some (.api he) }
      ({ s3 with loading := false }, evs2 ++ [.setLoading false])

/-- `fetchTransactions`: silently returns when no portfolio is current;
otherwise fetches and replaces `transactions`, storing the error object on
failure. -/
def fetchTransactions (resp : ApiResp (ListPayload Txn)) (s : PState) :
    PState × List Ev :=
  match s.currentPortfolio with
  | none => (s, [])
  | some _ =>
      let s1 : PState := { s with loading := true }
      let evs : List Ev := [.setLoading true, .remoteCall "portfolioService.getTransactions"]
      let s2 : PState :=
        match resp with
        | .success d => { s1 with transactions := d.extract }
        | .failure e => { s1 with error := some (.api e) }
      ({ s2 with loading := false }, evs ++ [.setLoading false])

/-- Output of a portfolio operation that returns an envelope to the UI. -/
structure POut (α : Type) where
  state : PState
  evs : List Ev
  result : OpResult α
deriving Repr, DecidableEq

/-- `addTransaction`: guarded on a selected portfolio; on remote success
re-selects the portfolio and re-fetches transactions; on remote failure
stores the error object and appends nothing — there is no locally fabricated
fallback record on this side. -/
def addTransaction (addResp : ApiResp Txn) (pResp : ApiResp Portfolio)
    (hResp : ApiResp (ListPayload Holding)) (ftResp : ApiResp (ListPayload Txn))
    (s : PState) : POut Txn :=
  match s.currentPortfolio with
  | none => ⟨s, [], .fail "No portfolio selected"⟩
  | some cp =>
      let s1 : PState := { s with loading := true }
      let evs : List Ev := [.setLoading true, .remoteCall "portfolioService.addTransaction"]
      match addResp with
      | .success t =>
          let r := selectPortfolio pResp hResp cp.id s1
          let r2 := fetchTransactions ftResp r.1
          ⟨{ r2.1 with loading := false }, evs ++ r.2 ++ r2.2 ++ [.setLoading false],
           .ok t⟩
      | .failure e =>
          ⟨{ s1 with error := some (.api e), loading := false },
           evs ++ [.setLoading false], .fail e.message⟩

/-- Condition of the portfolio auto-select effect:
`!currentPortfolio && portfolios.length > 0`. -/
def pAutoSelectFires (s : PState) : Bool :=
  s.currentPortfolio.isNone && !s.portfolios.isEmpty

/-- The portfolio auto-select `useEffect`: when no portfolio is current and
the collection is non-empty, invoke `selectPortfolio(portfolios[0].id)`. -/
def pAutoSelect (pResp : ApiResp Portfolio) (hResp : ApiResp (ListPayload Holding))
    (s : PState) : PState × List Ev :=
  match s.currentPortfolio, s.portfolios with
  | none, p :: _ => selectPortfolio pResp hResp p.id s
  | _, _ => (s, [])

/-! ## Base HTTP client (`ApiClient.request` / `ApiClient.handleError`)

The auth token (`localStorage` slot read by `getAuthToken` / cleared by
`setAuthToken(null)`) is threaded explicitly; each function returns the
result together with the token slot afterwards. -/

/-- Fields the error-normalization path reads from a parsed JSON body
(`data.message`, `data.error`, `data.code`). -/
structure ErrBody where
  message : Option String
  errorField : Option String
  code : Option String
deriving Repr, DecidableEq

/-- An HTTP response as `request` observes it: status, whether the
content-type header includes `application/json`, the result of attempting a
JSON body parse (`none` = the body is not valid JSON), and the raw text. -/
structure HttpResponse where
  status : Nat
  contentTypeJson : Bool
  jsonParse : Option ErrBody
  text : String
deriving Repr, DecidableEq

/-- The `response.ok` flag: status in the 2xx range. -/
def HttpResponse.isOk (r : HttpResponse) : Bool :=
  200 ≤ r.status && r.status ≤ 299

/-- Outcome of the underlying `fetch` promise: rejected (with the error
name and message, e.g. `AbortError` from the timeout abort signal), or a
response. -/
inductive FetchOutcome where
  | rejected (name message : String)
  | responded (r : HttpResponse)
deriving Repr, DecidableEq

/-- Payload of a success envelope: parsed JSON data or body text. -/
inductive DataVal where
  | jsonData (b : ErrBody)
  | textData (s : String)
deriving Repr, DecidableEq

/-- What a call to `request` yields at the caller: a success envelope, a
normalized error envelope, or a promise rejection that escapes to the
caller (`raised`). -/
inductive ReqOutcome where
  | ok (data : DataVal) (status : Nat)
  | err (message : String) (code : String) (status : Option Nat)
  | raised (reason : String)
deriving Repr, DecidableEq

/-- Whether a `request` outcome is one of the two documented envelopes. -/
def ReqOutcome.isEnvelope : ReqOutcome → Bool
  | .ok _ _ => true
  | .err _ _ _ => true
  | .raised _ => false

/-- The status-specific user-facing messages of `handleError`; the `switch`
default leaves the generic message. -/
def statusMessage (status : Nat) : String :=
  match status with
  | 401 => "Unauthorized. Please log in."
  | 403 => "Access forbidden."
  | 404 => "Resource not found."
  | 422 => "Validation error."
  | 500 => "Server error. Please try again later."
  | 503 => "Service unavailable. Please try again later."
  | _ => "An error occurred"

/-- `ApiClient.handleError` applied to a non-OK response. When the
content-type is JSON it returns early: a parseable body is normalized from
the body fields, an unparseable one makes the returned promise reject — in
both cases the status `switch` (including the 401 token clearing) is never
reached. Only the non-JSON path runs the `switch`, and only its 401 case
clears the token. -/
def handleError (tok : Option String) (r : HttpResponse) :
    ReqOutcome × Option String :=
  if r.contentTypeJson then
    match r.jsonParse with
    | some b =>
        (.err (jsOrOpt b.message (jsOrOpt b.errorField "An error occurred"))
              (jsOrOpt b.code ("HTTP_" ++ toString r.status))
              (some r.status),
         tok)
    | none => (.raised "JSON parse rejection from error body", tok)
  else
    (.err (statusMessage r.status) ("HTTP_" ++ toString r.status) (some r.status),
     if r.status = 401 then none else tok)

/-- `ApiClient.request` given the outcome of the underlying `fetch`: a
rejection named `AbortError` becomes the timeout envelope, any other
rejection the network-error envelope; a non-2xx response goes through
`handleError`; a 2xx response is parsed — a JSON body that fails to parse
throws inside the `try`, which the `catch` turns into the network-error
envelope. -/
def request (tok : Option String) (o : FetchOutcome) :
    ReqOutcome × Option String :=
  match o with
  | .rejected name _ =>
      if name == "AbortError" then
        (.err "Request timeout. Please try again." "TIMEOUT_ERROR" none, tok)
      else
        (.err "Network error. Please check your connection." "NETWORK_ERROR" none, tok)
  | .responded r =>
      if r.isOk then
        if r.contentTypeJson then
          match r.jsonParse with
          | some b => (.ok (.jsonData b) r.status, tok)
          | none =>
              (.err "Network error. Please check your connection." "NETWORK_ERROR" none,
               tok)
        else (.ok (.textData r.text) r.status, tok)
      else handleError tok r

/-- The fetch outcomes on which `request` hands a rejection to its caller:
a non-2xx response whose content-type is JSON but whose body does not
parse. -/
def raisesToCaller (o : FetchOutcome) : Bool :=
  match o with
  | .rejected _ _ => false
  | .responded r => !r.isOk && r.contentTypeJson && r.jsonParse.isNone

/-! ## Concrete fixtures used by witnesses and counterexamples -/

/-- Provider state right after mount: empty collection, nothing selected, no
snapshot stored. -/
def wInit : WState :=
  { watchlists := [], currentWatchlist := none, items := [], loading := false,
    error := none, cache := .absent }

/-- Watchlist state with a stored snapshot differing from the defaults. -/
def wStored : WState :=
  { wInit with cache := .stored { watchlists := some [⟨"w9", "Cached"⟩],
                                  items := some [] } }

/-- Watchlist state whose only collection entry has an id that appears in no
snapshot and no default fixture. -/
def sGhost : WState :=
  { wInit with watchlists := [⟨"zzz", "Ghost"⟩] }

/-- Portfolio state right after mount. -/
def pInit : PState :=
  { portfolios := [], currentPortfolio := none, holdings := [],
    transactions := [], loading := false, error := none, cache := .absent }

/-- Portfolio state with a stored snapshot. -/
def pStored : PState :=
  { pInit with cache := .stored { portfolios := some [⟨"p9", "Cached"⟩],
                                  holdings := some [], transactions := some [] } }

/-- Portfolio state with a selected portfolio. -/
def pWithCurrent : PState :=
  { pInit with portfolios := [⟨"p1", "Main"⟩],
               currentPortfolio := some ⟨"p1", "Main"⟩ }

/-! ## Helper lemmas -/

/-- A trace beginning with the standard entry prefix opens with a `true`
loading write. -/
theorem loadingWrites_head (e : String) (rest : List Ev) :
    (loadingWrites (Ev.setLoading true :: Ev.remoteCall e :: rest)).head? =
      some true := by
  simp [loadingWrites]

/-- A trace ending in `setLoading false` closes with a `false` loading
write. -/
theorem loadingWrites_last (evs : List Ev) :
    (loadingWrites (evs ++ [Ev.setLoading false])).getLast? = some false := by
  simp [loadingWrites, List.filterMap_append, List.getLast?_concat]

/-- Append distributes over the loading-write projection. -/
theorem loadingWrites_append (a b : List Ev) :
    loadingWrites (a ++ b) = loadingWrites a ++ loadingWrites b := by
  simp [loadingWrites, List.filterMap_append]

/-- An operation run obeys the loading protocol: the first loading write is
`true`, the last is `false`, and the final state has `loading = false`. -/
def loadingProtocol (evs : List Ev) (final : Bool) : Prop :=
  (loadingWrites evs).head? = some true ∧
  (loadingWrites evs).getLast? = some false ∧
  final = false

/-! ## Claim C7 -/

/-- C7 counterexample: a 500 response whose content-type is JSON but whose
body does not parse makes `request` hand a promise rejection to the caller
instead of an error envelope, refuting the claim that every outcome —
including a malformed response body — is returned as an envelope. -/
theorem request_raises_on_bad_error_body :
    (request (some "token")
        (.responded { status := 500, contentTypeJson := true,
                      jsonParse := none, text := "" })).1.isEnvelope = false := by
  rfl

/-- C7 (amended): `request` never throws to the caller — every outcome,
including network failure, non-2xx status, timeout, and a malformed body of
a 2xx response, is returned as a `{success:true,data}` or
`{success:false,error}` envelope — except when a non-2xx response carries a
JSON content-type with an unparseable body, in which case the JSON parse
rejection escapes to the caller. -/
theorem request_normalizes_outcomes (tok : Option String) (o : FetchOutcome)
    (h : raisesToCaller o = false) :
    (request tok o).1.isEnvelope = true := by
  cases o with
  | rejected name msg =>
      by_cases hn : (name == "AbortError") = true <;>
        simp [request, hn, ReqOutcome.isEnvelope]
  | responded r =>
      rcases hp : r.jsonParse with _ | b
      · by_cases hok : r.isOk = true
        · by_cases hct : r.contentTypeJson = true
          · simp [request, hok, hct, hp, ReqOutcome.isEnvelope]
          · simp only [Bool.not_eq_true] at hct
            simp [request, hok, hct, ReqOutcome.isEnvelope]
        · simp only [Bool.not_eq_true] at hok
          have hct : r.contentTypeJson = false := by
            simpa [raisesToCaller, hok, hp] using h
          simp [request, hok, handleError, hct, ReqOutcome.isEnvelope]
      · by_cases hok : r.isOk = true
        · by_cases hct : r.contentTypeJson = true
          · simp [request, hok, hct, hp, ReqOutcome.isEnvelope]
          · simp only [Bool.not_eq_true] at hct
            simp [request, hok, hct, ReqOutcome.isEnvelope]
        · simp only [Bool.not_eq_true] at hok
          by_cases hct : r.contentTypeJson = true
          · simp [request, hok, handleError, hct, hp, ReqOutcome.isEnvelope]
          · simp only [Bool.not_eq_true] at hct
            simp [request, hok, handleError, hct, ReqOutcome.isEnvelope]

/-- C7 witness: a plain 404 without a JSON body is normalized into an error
envelope. -/
theorem request_normalizes_outcomes_witness :
    raisesToCaller (.responded { status := 404, contentTypeJson := false,
                                 jsonParse := none, text := "nope" }) = false ∧
    (request none (.responded { status := 404, contentTypeJson := false,
                                jsonParse := none, text := "nope" })).1.isEnvelope
      = true :=
  ⟨by rfl, request_normalizes_outcomes none _ (by rfl)⟩

/-! ## Claim C8 -/

/-- C8 counterexample: a 401 response with a parseable JSON body leaves the
stored credential untouched, refuting the claim that every 401 response
invalidates it — the early JSON return in `handleError` skips the status
`switch` that clears the token. -/
theorem auth_token_kept_on_json_401 :
    (request (some "token")
        (.responded { status := 401, contentTypeJson := true,
                      jsonParse := some { message := some "Unauthorized",
                                          errorField := none, code := none },
                      text := "" })).2 = some "token" := by
  rfl

/-- C8 (amended): only a 401 response whose content-type is not JSON clears
the stored credential; a 401 whose body parses as JSON is normalized from
the body fields and leaves the credential in place. -/
theorem auth_token_cleared_on_non_json_401 (tok : Option String)
    (r : HttpResponse) (h401 : r.status = 401) :
    (r.contentTypeJson = false → (request tok (.responded r)).2 = none) ∧
    (∀ b, r.contentTypeJson = true → r.jsonParse = some b →
        (request tok (.responded r)).2 = tok) := by
  have hok : r.isOk = false := by
    simp [HttpResponse.isOk, h401]
  constructor
  · intro hct
    simp [request, hok, handleError, hct, h401]
  · intro b hct hp
    simp [request, hok, handleError, hct, hp]

/-- C8 witness: a concrete non-JSON 401 clears the token, and a concrete
JSON 401 keeps it. -/
theorem auth_token_cleared_on_non_json_401_witness :
    (request (some "tok") (.responded { status := 401, contentTypeJson := false,
                                        jsonParse := none, text := "" })).2 = none ∧
    (request (some "tok") (.responded { status := 401, contentTypeJson := true,
                                        jsonParse := some ⟨none, none, none⟩,
                                        text := "" })).2 = some "tok" :=
  ⟨(auth_token_cleared_on_non_json_401 (some "tok") _ rfl).1 rfl,
   (auth_token_cleared_on_non_json_401 (some "tok") _ rfl).2 ⟨none, none, none⟩ rfl rfl⟩

/-! ## Claim C1 -/

/-- The collection a failed watchlist fetch can recover from the snapshot
slot: present only when the slot parses and carries a `watchlists` field. -/
def wSnapshotCollection (c : CacheVal WSnapshot) : Option (List Watchlist) :=
  match (safeParseMockData c).1 with
  | some snap => snap.watchlists
  | none => none

/-- The collection a failed portfolio fetch can recover from the snapshot
slot: present only when the slot parses and carries a `portfolios` field. -/
def pSnapshotPortfolios (c : CacheVal PSnapshot) : Option (List Portfolio) :=
  match (safeParseMockData c).1 with
  | some snap => snap.portfolios
  | none => none

/-- C1 counterexample: with no snapshot present, a failed `fetchWatchlists`
does not leave the collection empty — it populates it with the non-empty
built-in default mock watchlists; and with a snapshot present, a failed
`fetchPortfolios` populates the collection from it without recording the
underlying error at all. Both refute the claimed failure policy. -/
theorem fetch_failure_policy_counterexample :
    ((fetchWatchlists (.failure { message := "Network error" }) wInit).1.watchlists
        = mockWatchlists ∧ mockWatchlists ≠ []) ∧
    (fetchPortfolios (.failure { message := "Network error" }) pStored).1.error
      = none := by
  refine ⟨⟨rfl, ?_⟩, rfl⟩
  decide

/-- C1 (amended): on a failed remote fetch the manager attempts a Cache
Snapshot read. The watchlist manager populates the collection from the
snapshot when it holds one, otherwise from the built-in default mock
watchlists, and in both cases records the error message; the portfolio
manager populates the collection from the snapshot when it holds one
recording no error, and otherwise sets the error object and leaves the
collection as it was (empty on a first fetch). -/
theorem fetch_failure_policy (e : SvcError) (s : WState) (p : PState) :
    (∀ ws, wSnapshotCollection s.cache = some ws →
        (fetchWatchlists (.failure e) s).1.watchlists = ws ∧
        (fetchWatchlists (.failure e) s).1.error =
          some (.msg (jsOr e.message "Failed to fetch watchlists"))) ∧
    (wSnapshotCollection s.cache = none →
        (fetchWatchlists (.failure e) s).1.watchlists = mockWatchlists ∧
        (fetchWatchlists (.failure e) s).1.error =
          some (.msg (jsOr e.message "Failed to fetch watchlists"))) ∧
    (∀ ps, pSnapshotPortfolios p.cache = some ps →
        (fetchPortfolios (.failure e) p).1.portfolios = ps ∧
        (fetchPortfolios (.failure e) p).1.error = none) ∧
    (pSnapshotPortfolios p.cache = none →
        (fetchPortfolios (.failure e) p).1.portfolios = p.portfolios ∧
        (fetchPortfolios (.failure e) p).1.error = some (.api e)) := by
  refine ⟨?_, ?_, ?_, ?_⟩
  · intro ws hws
    rcases hc : s.cache with _ | _ | snap <;>
      simp [wSnapshotCollection, safeParseMockData, hc] at hws
    simp [fetchWatchlists, safeParseMockData, hc, hws]
  · intro hws
    rcases hc : s.cache with _ | _ | snap <;>
      simp [wSnapshotCollection, safeParseMockData, hc] at hws ⊢ <;>
      simp [fetchWatchlists, safeParseMockData, hc, hws]
  · intro ps hps
    rcases hc : p.cache with _ | _ | snap <;>
      simp [pSnapshotPortfolios, safeParseMockData, hc] at hps
    simp [fetchPortfolios, safeParseMockData, hc, hps]
  · intro hps
    rcases hc : p.cache with _ | _ | snap <;>
      simp [pSnapshotPortfolios, safeParseMockData, hc] at hps ⊢ <;>
      simp [fetchPortfolios, safeParseMockData, hc, hps]

/-- C1 witness: a stored watchlist snapshot is surfaced on failure, and a
portfolio failure without a snapshot records the error object. -/
theorem fetch_failure_policy_witness :
    (fetchWatchlists (.failure { message := "boom" }) wStored).1.watchlists
      = [⟨"w9", "Cached"⟩] ∧
    (fetchPortfolios (.failure { message := "boom" }) pInit).1.error
      = some (.api { message := "boom" }) :=
  ⟨((fetch_failure_policy { message := "boom" } wStored pInit).1
      [⟨"w9", "Cached"⟩] rfl).1,
   ((fetch_failure_policy { message := "boom" } wStored pInit).2.2.2 rfl).2⟩

/-! ## Claim C5 -/

/-- C5 counterexample: a successful fetch of the collection `[w1]` leaves
the cache slot untouched (still absent), and a failed fetch right after it
surfaces the built-in default mock watchlists rather than the most recently
fetched collection — refuting the claim that every successful fetch
(re)writes the Cache Snapshot. -/
theorem cache_not_written_counterexample :
    (fetchWatchlists (.success (.plain [⟨"w1", "Tech"⟩])) wInit).1.cache
      = CacheVal.absent ∧
    (fetchWatchlists (.failure { message := "down" })
        (fetchWatchlists (.success (.plain [⟨"w1", "Tech"⟩])) wInit).1).1.watchlists
      ≠ [⟨"w1", "Tech"⟩] := by
  refine ⟨rfl, ?_⟩
  decide

/-- C5 (amended): a successful remote collection fetch never writes the
Cache Snapshot on either side; the snapshot is written only by the explicit
`loadMockData` helper, which always stores the fixed mock fixtures, so a
failed fetch following `loadMockData` yields those fixtures, not the most
recently fetched collection. -/
theorem cache_snapshot_policy (s : WState) (p : PState) :
    (∀ d, (fetchWatchlists (.success d) s).1.cache = s.cache) ∧
    (∀ d, (fetchPortfolios (.success d) p).1.cache = p.cache) ∧
    (∀ e, s.cache = loadMockDataW →
        (fetchWatchlists (.failure e) s).1.watchlists = mockWatchlists) := by
  refine ⟨?_, ?_, ?_⟩
  · intro d; simp [fetchWatchlists]
  · intro d; simp [fetchPortfolios]
  · intro e hc
    simp [fetchWatchlists, hc, loadMockDataW, safeParseMockData]

/-- C5 witness: after `loadMockData` has stored the fixtures, a failed fetch
surfaces exactly the fixtures. -/
theorem cache_snapshot_policy_witness :
    (fetchWatchlists (.failure { message := "down" })
        { wInit with cache := loadMockDataW }).1.watchlists = mockWatchlists :=
  (cache_snapshot_policy { wInit with cache := loadMockDataW } pInit).2.2
    { message := "down" } rfl

/-! ## Claim C2 -/

/-- Select never mutates the collection on the watchlist side. -/
theorem selectWatchlist_preserves_collection (resp : ApiResp DetailPayload)
    (i : String) (s : WState) :
    (selectWatchlist resp i s).1.watchlists = s.watchlists := by
  rcases resp with d | e
  · simp [selectWatchlist]
  · rcases hc : s.cache with _ | _ | snap <;>
      simp [selectWatchlist, safeParseMockData, hc]
    rcases snap.watchlists with _ | ws <;> rcases snap.items with _ | its <;> simp

/-- Select never mutates the collection on the portfolio side. -/
theorem selectPortfolio_preserves_collection (pr : ApiResp Portfolio)
    (hr : ApiResp (ListPayload Holding)) (i : String) (p : PState) :
    (selectPortfolio pr hr i p).1.portfolios = p.portfolios := by
  rcases pr with q | e
  · rcases hr with hd | he <;> simp [selectPortfolio]
  · rcases hc : p.cache with _ | _ | snap
    · simp [selectPortfolio, safeParseMockData, hc]
    · simp [selectPortfolio, safeParseMockData, hc]
    · rcases hps : snap.portfolios with _ | ps
      · simp [selectPortfolio, safeParseMockData, hc, hps]
      · rcases hhs : snap.holdings with _ | hs
        · simp [selectPortfolio, safeParseMockData, hc, hps, hhs]
        · rcases hts : snap.transactions with _ | ts
          · simp [selectPortfolio, safeParseMockData, hc, hps, hhs, hts]
          · rcases hf : ps.find? (fun q => q.id == i) with _ | q <;>
              simp [selectPortfolio, safeParseMockData, hc, hps, hhs, hts, hf]

/-- C2 counterexample: in `sGhost` (selection null, collection non-empty,
collection head id found in no snapshot and no fixture) the enforcer fires,
but with the select fetch failing the selection stays null and the enforcer
condition holds again afterwards — refuting the claimed convergence to
`current == collection[0]` within one reactive re-evaluation. -/
theorem auto_select_no_convergence :
    (wAutoSelect (.failure { message := "down" }) sGhost).1.currentWatchlist
      = none ∧
    wAutoSelectFires (wAutoSelect (.failure { message := "down" }) sGhost).1
      = true := by
  exact ⟨rfl, rfl⟩

/-- C2 (amended): whenever `current` is null and the collection is non-empty
the enforcer invokes select on `collection[0].id`; if that select fetch
succeeds with the detail of `collection[0]` the state converges to
`current == collection[0]` and the enforcer does not re-trigger; `select`
itself never mutates the collection on either side. (When the select falls
back and no fallback source contains the id, `current` can stay null and
the rule fires again, as the counterexample shows.) -/
theorem auto_select_invariant (s : WState) (w : Watchlist)
    (rest : List Watchlist) (hw : s.watchlists = w :: rest)
    (hc : s.currentWatchlist = none) :
    (∀ its, (wAutoSelect (.success (.nested w its)) s).1.currentWatchlist = some w ∧
        wAutoSelectFires (wAutoSelect (.success (.nested w its)) s).1 = false) ∧
    (∀ resp i s', (selectWatchlist resp i s').1.watchlists = s'.watchlists) ∧
    (∀ (q : Portfolio) (prest : List Portfolio) (hl : ListPayload Holding)
        (p : PState), p.portfolios = q :: prest → p.currentPortfolio = none →
        (pAutoSelect (.success q) (.success hl) p).1.currentPortfolio = some q ∧
        pAutoSelectFires (pAutoSelect (.success q) (.success hl) p).1 = false) ∧
    (∀ pr hr i p', (selectPortfolio pr hr i p').1.portfolios = p'.portfolios) := by
  refine ⟨?_, ?_, ?_, ?_⟩
  · intro its
    constructor
    · simp [wAutoSelect, hc, hw, selectWatchlist, DetailPayload.watchlist]
    · simp [wAutoSelect, hc, hw, wAutoSelectFires, selectWatchlist,
        DetailPayload.watchlist]
  · intro resp i s'
    exact selectWatchlist_preserves_collection resp i s'
  · intro q prest hl p hp hcp
    constructor
    · simp [pAutoSelect, hcp, hp, selectPortfolio]
    · simp [pAutoSelect, hcp, hp, pAutoSelectFires, selectPortfolio]
  · intro pr hr i p'
    exact selectPortfolio_preserves_collection pr hr i p'

/-- C2 witness: in a concrete state with one unselected watchlist, a
successful select converges to the head and the enforcer stops firing. -/
theorem auto_select_invariant_witness :
    (wAutoSelect (.success (.nested ⟨"w1", "Tech"⟩ []))
        { wInit with watchlists := [⟨"w1", "Tech"⟩] }).1.currentWatchlist
      = some ⟨"w1", "Tech"⟩ ∧
    wAutoSelectFires (wAutoSelect (.success (.nested ⟨"w1", "Tech"⟩ []))
        { wInit with watchlists := [⟨"w1", "Tech"⟩] }).1 = false :=
  (auto_select_invariant { wInit with watchlists := [⟨"w1", "Tech"⟩] }
      ⟨"w1", "Tech"⟩ [] rfl rfl).1 []

/-! ## Claim C3 -/

/-- Watchlist state with the watchlist `p1` selected. -/
def wWithCurrent : WState :=
  { wInit with watchlists := [⟨"p1", "List"⟩],
               currentWatchlist := some ⟨"p1", "List"⟩ }

/-- C3 counterexample: with a portfolio selected and the remote failing,
`addTransaction` appends nothing to the children and stores the error
object as a fatal error — refuting the claim that every child-add
operation synthesizes a fallback record and avoids a fatal error. -/
theorem add_transaction_no_degrade :
    (addTransaction (.failure { message := "down" }) (.failure { message := "x" })
        (.failure { message := "x" }) (.failure { message := "x" })
        pWithCurrent).state.transactions = pWithCurrent.transactions ∧
    (addTransaction (.failure { message := "down" }) (.failure { message := "x" })
        (.failure { message := "x" }) (.failure { message := "x" })
        pWithCurrent).state.error = some (.api { message := "down" }) := by
  exact ⟨rfl, rfl⟩

/-- C3 (amended): only the watchlist side degrades optimistically. With a
parent selected and the remote failing, `addStock` appends exactly one
fabricated item (uppercased symbol, clock-derived fresh id, fixed
placeholder fields) to `items`, leaves `error` untouched and still returns
a success envelope carrying that item; the portfolio side `addTransaction`
instead stores the error object and appends nothing. -/
theorem add_child_failure_behaviour (symbol notes : String) (e e2 : SvcError)
    (refreshResp : ApiResp DetailPayload) (nowMs : Nat) (nowIso : String)
    (s : WState) (cw : Watchlist) (hcw : s.currentWatchlist = some cw)
    (pr : ApiResp Portfolio) (hr : ApiResp (ListPayload Holding))
    (fr : ApiResp (ListPayload Txn)) (p : PState) (cp : Portfolio)
    (hcp : p.currentPortfolio = some cp) :
    (addStock symbol notes (.failure e) refreshResp nowMs nowIso s).state.items =
        s.items ++ [fabricatedItem symbol notes cw nowMs nowIso] ∧
    (addStock symbol notes (.failure e) refreshResp nowMs nowIso s).state.error
        = s.error ∧
    (addStock symbol notes (.failure e) refreshResp nowMs nowIso s).result =
        .ok (fabricatedItem symbol notes cw nowMs nowIso) ∧
    (fabricatedItem symbol notes cw nowMs nowIso).symbol = symbol.toUpper ∧
    (addTransaction (.failure e2) pr hr fr p).state.transactions
        = p.transactions ∧
    (addTransaction (.failure e2) pr hr fr p).state.error = some (.api e2) := by
  refine ⟨?_, ?_, ?_, rfl, ?_, ?_⟩ <;>
    simp [addStock, addTransaction, hcw, hcp, fabricatedItem]

/-- C3 witness: the literal call of the spec — with `p1` selected and the
remote down, adding `AAPL` leaves exactly one new fabricated entry with
symbol `AAPL` and no error. -/
theorem add_child_failure_behaviour_witness :
    (addStock "AAPL" "test" (.failure { message := "down" })
        (.failure { message := "x" }) 42 "2024-11-05T00:00:00.000Z"
        wWithCurrent).state.items =
      [fabricatedItem "AAPL" "test" ⟨"p1", "List"⟩ 42 "2024-11-05T00:00:00.000Z"] ∧
    (addStock "AAPL" "test" (.failure { message := "down" })
        (.failure { message := "x" }) 42 "2024-11-05T00:00:00.000Z"
        wWithCurrent).state.error = none := by
  have h := add_child_failure_behaviour "AAPL" "test" { message := "down" }
    { message := "x" } (.failure { message := "x" }) 42 "2024-11-05T00:00:00.000Z"
    wWithCurrent ⟨"p1", "List"⟩ rfl (.failure { message := "x" })
    (.failure { message := "x" }) (.failure { message := "x" }) pWithCurrent
    ⟨"p1", "Main"⟩ rfl
  exact ⟨by simpa using h.1, by simpa using h.2.1⟩

/-! ## Claim C4 -/

/-- Watchlist state with two watchlists and `x` selected. -/
def wDel : WState :=
  { wInit with watchlists := [⟨"x", "X"⟩, ⟨"y", "Y"⟩],
               currentWatchlist := some ⟨"x", "X"⟩ }

/-- C4: a remotely successful delete re-fetches the collection; when the
deleted id equals the current id, the selection and its items are cleared
and — given the refreshed remote collection no longer lists the id — the id
is absent from the collection; when the deleted id differs from the current
id, the selection is left unchanged. -/
theorem delete_clears_selection (watchlistId : String)
    (d : ListPayload Watchlist) (s : WState) (cw : Watchlist)
    (hcur : s.currentWatchlist = some cw)
    (habsent : ∀ w ∈ d.extract, w.id ≠ watchlistId) :
    (cw.id = watchlistId →
        (deleteWatchlist watchlistId (.success ()) (.success d) s).state.currentWatchlist
          = none ∧
        (deleteWatchlist watchlistId (.success ()) (.success d) s).state.items = [] ∧
        ∀ w ∈ (deleteWatchlist watchlistId (.success ()) (.success d) s).state.watchlists,
          w.id ≠ watchlistId) ∧
    (cw.id ≠ watchlistId →
        (deleteWatchlist watchlistId (.success ()) (.success d) s).state.currentWatchlist
          = some cw) := by
  constructor
  · intro hid
    refine ⟨?_, ?_, ?_⟩
    · simp [deleteWatchlist, fetchWatchlists, hcur, hid]
    · simp [deleteWatchlist, fetchWatchlists, hcur, hid]
    · intro w hw
      simp [deleteWatchlist, fetchWatchlists, hcur, hid] at hw
      exact habsent w hw
  · intro hid
    simp [deleteWatchlist, fetchWatchlists, hcur, hid]

/-- C4 witness: deleting the selected `x` clears the selection and `x` is
gone from the refreshed collection; deleting the unselected `y` leaves the
selection on `x`. -/
theorem delete_clears_selection_witness :
    (deleteWatchlist "x" (.success ()) (.success (.plain [⟨"y", "Y"⟩]))
        wDel).state.currentWatchlist = none ∧
    (deleteWatchlist "y" (.success ()) (.success (.plain [⟨"x", "X"⟩]))
        wDel).state.currentWatchlist = some ⟨"x", "X"⟩ :=
  ⟨((delete_clears_selection "x" (.plain [⟨"y", "Y"⟩]) wDel ⟨"x", "X"⟩ rfl
      (by decide)).1 rfl).1,
   (delete_clears_selection "y" (.plain [⟨"x", "X"⟩]) wDel ⟨"x", "X"⟩ rfl
      (by decide)).2 (by decide)⟩

/-! ## Claim C6 -/

/-- Watchlist state with `p1` selected and a single item `c1`. -/
def wOneItem : WState :=
  { wInit with watchlists := [⟨"p1", "List"⟩],
               currentWatchlist := some ⟨"p1", "List"⟩,
               items := [{ id := "c1", watchlistId := "p1", symbol := "MSFT",
                           name := "Microsoft", price := 0, change := 0,
                           changePercent := 0, notes := "", addedAt := "" }] }

/-- C6: with a watchlist selected and `items` holding exactly one item with
the target id, a remotely successful `removeStock` splices it out of the
in-memory list, and an identical second call is a no-op: it removes nothing
further, leaves `error` as it was, and returns a success envelope. -/
theorem remove_child_idempotent (itemId : String) (s : WState)
    (cw : Watchlist) (it : WItem) (hcur : s.currentWatchlist = some cw)
    (hits : s.items = [it]) (hid : it.id = itemId) :
    (removeStock itemId (.success ()) s).state.items = [] ∧
    (removeStock itemId (.success ())
        (removeStock itemId (.success ()) s).state).state.items = [] ∧
    (removeStock itemId (.success ())
        (removeStock itemId (.success ()) s).state).state.error = s.error ∧
    (removeStock itemId (.success ())
        (removeStock itemId (.success ()) s).state).result = .ok () := by
  subst hid
  have hcur1 : (removeStock it.id (.success ()) s).state.currentWatchlist
      = some cw := by
    simp [removeStock, hcur]
  have hitems1 : (removeStock it.id (.success ()) s).state.items = [] := by
    simp [removeStock, hcur, hits]
  have herr1 : (removeStock it.id (.success ()) s).state.error = s.error := by
    simp [removeStock, hcur]
  have key : ∀ t : WState, t.currentWatchlist = some cw → t.items = [] →
      t.error = s.error →
      (removeStock it.id (.success ()) t).state.items = [] ∧
      (removeStock it.id (.success ()) t).state.error = s.error ∧
      (removeStock it.id (.success ()) t).result = .ok () := by
    intro t h1 h2 h3
    refine ⟨?_, ?_, ?_⟩ <;> simp [removeStock, h1, h2, h3]
  obtain ⟨k1, k2, k3⟩ := key _ hcur1 hitems1 herr1
  exact ⟨hitems1, k1, k2, k3⟩

/-- C6 witness: the literal spec input — `removeChild('p1','c1')` called
twice against a one-item list — removes the item once and is a clean no-op
the second time. -/
theorem remove_child_idempotent_witness :
    (removeStock "c1" (.success ())
        (removeStock "c1" (.success ()) wOneItem).state).state.items = [] ∧
    (removeStock "c1" (.success ())
        (removeStock "c1" (.success ()) wOneItem).state).result = .ok () :=
  ⟨(remove_child_idempotent "c1" wOneItem ⟨"p1", "List"⟩
      { id := "c1", watchlistId := "p1", symbol := "MSFT", name := "Microsoft",
        price := 0, change := 0, changePercent := 0, notes := "", addedAt := "" }
      rfl rfl rfl).2.1,
   (remove_child_idempotent "c1" wOneItem ⟨"p1", "List"⟩
      { id := "c1", watchlistId := "p1", symbol := "MSFT", name := "Microsoft",
        price := 0, change := 0, changePercent := 0, notes := "", addedAt := "" }
      rfl rfl rfl).2.2.2⟩

/-! ## Claim C9 -/

/-- A trace of the plain shape entry-prefix then final `setLoading false`
satisfies the loading protocol. -/
theorem loadingProtocol_parts0 (e : String) :
    loadingProtocol ([Ev.setLoading true, Ev.remoteCall e] ++ [Ev.setLoading false])
      false := by
  refine ⟨?_, ?_, rfl⟩ <;> simp [loadingWrites]

/-- A trace of the shape entry-prefix, one inner trace, then final
`setLoading false` satisfies the loading protocol. -/
theorem loadingProtocol_parts1 (e : String) (a : List Ev) :
    loadingProtocol
      (([Ev.setLoading true, Ev.remoteCall e] ++ a) ++ [Ev.setLoading false])
      false := by
  refine ⟨?_, ?_, rfl⟩
  · simp [loadingWrites]
  · exact loadingWrites_last _

/-- A trace of the shape entry-prefix, two inner traces, then final
`setLoading false` satisfies the loading protocol. -/
theorem loadingProtocol_parts2 (e : String) (a b : List Ev) :
    loadingProtocol
      ((([Ev.setLoading true, Ev.remoteCall e] ++ a) ++ b) ++ [Ev.setLoading false])
      false := by
  refine ⟨?_, ?_, rfl⟩
  · simp [loadingWrites]
  · exact loadingWrites_last _

/-- C9: every embedded manager operation writes `loading := true` first and
`loading := false` last — its loading-write trace opens with `true` and
closes with `false` — and leaves `loading = false` in its final state,
whatever the remote outcomes and cache contents; the child-level
operations satisfy this whenever their selected-parent guard passes. -/
theorem loading_flag_protocol :
    (∀ resp s, loadingProtocol (fetchWatchlists resp s).2
        (fetchWatchlists resp s).1.loading) ∧
    (∀ resp i s, loadingProtocol (selectWatchlist resp i s).2
        (selectWatchlist resp i s).1.loading) ∧
    (∀ c g dr s, loadingProtocol (createWatchlist c g dr s).evs
        (createWatchlist c g dr s).state.loading) ∧
    (∀ i dl g s, loadingProtocol (deleteWatchlist i dl g s).evs
        (deleteWatchlist i dl g s).state.loading) ∧
    (∀ sym nts a rr nm ni s, s.currentWatchlist.isSome = true →
        loadingProtocol (addStock sym nts a rr nm ni s).evs
          (addStock sym nts a rr nm ni s).state.loading) ∧
    (∀ i rsp s, s.currentWatchlist.isSome = true →
        loadingProtocol (removeStock i rsp s).evs
          (removeStock i rsp s).state.loading) ∧
    (∀ resp p, loadingProtocol (fetchPortfolios resp p).2
        (fetchPortfolios resp p).1.loading) ∧
    (∀ pr hr i p, loadingProtocol (selectPortfolio pr hr i p).2
        (selectPortfolio pr hr i p).1.loading) ∧
    (∀ a pr hr fr p, p.currentPortfolio.isSome = true →
        loadingProtocol (addTransaction a pr hr fr p).evs
          (addTransaction a pr hr fr p).state.loading) := by
  refine ⟨?_, ?_, ?_, ?_, ?_, ?_, ?_, ?_, ?_⟩
  · intro resp s; exact ⟨rfl, rfl, rfl⟩
  · intro resp i s; exact ⟨rfl, rfl, rfl⟩
  · intro c g dr s
    rcases c with w | e
    · simp only [createWatchlist]
      split
      · exact loadingProtocol_parts2 _ _ _
      · exact loadingProtocol_parts1 _ _
    · exact ⟨rfl, rfl, rfl⟩
  · intro i dl g s
    rcases dl with u | e
    · exact loadingProtocol_parts1 _ _
    · exact ⟨rfl, rfl, rfl⟩
  · intro sym nts a rr nm ni s h
    obtain ⟨cw, hcw⟩ := Option.isSome_iff_exists.mp h
    rcases a with item | e
    · simp only [addStock, hcw]
      exact loadingProtocol_parts1 _ _
    · simp only [addStock, hcw]
      exact loadingProtocol_parts0 _
  · intro i rsp s h
    obtain ⟨cw, hcw⟩ := Option.isSome_iff_exists.mp h
    rcases rsp with u | e <;> simp only [removeStock, hcw] <;>
      exact loadingProtocol_parts0 _
  · intro resp p; exact ⟨rfl, rfl, rfl⟩
  · intro pr hr i p
    rcases pr with q | e <;> exact ⟨rfl, rfl, rfl⟩
  · intro a pr hr fr p h
    obtain ⟨cp, hcp⟩ := Option.isSome_iff_exists.mp h
    rcases a with t | e
    · simp only [addTransaction, hcp]
      exact loadingProtocol_parts2 _ _ _
    · simp only [addTransaction, hcp]
      exact loadingProtocol_parts0 _

/-- C9 witness: concrete runs of the guarded operations with a parent
selected obey the loading protocol. -/
theorem loading_flag_protocol_witness :
    loadingProtocol (addStock "AAPL" "" (.failure { message := "x" })
        (.failure { message := "x" }) 1 "t" wWithCurrent).evs
      (addStock "AAPL" "" (.failure { message := "x" })
        (.failure { message := "x" }) 1 "t" wWithCurrent).state.loading ∧
    loadingProtocol (removeStock "c1" (.success ()) wOneItem).evs
      (removeStock "c1" (.success ()) wOneItem).state.loading ∧
    loadingProtocol (addTransaction (.success ⟨"t1", "p1", "AAPL"⟩)
        (.success ⟨"p1", "Main"⟩) (.success (.plain [])) (.success (.plain []))
        pWithCurrent).evs
      (addTransaction (.success ⟨"t1", "p1", "AAPL"⟩) (.success ⟨"p1", "Main"⟩)
        (.success (.plain [])) (.success (.plain [])) pWithCurrent).state.loading :=
  ⟨loading_flag_protocol.2.2.2.2.1 "AAPL" "" (.failure { message := "x" })
      (.failure { message := "x" }) 1 "t" wWithCurrent rfl,
   loading_flag_protocol.2.2.2.2.2.1 "c1" (.success ()) wOneItem rfl,
   loading_flag_protocol.2.2.2.2.2.2.2.2 (.success ⟨"t1", "p1", "AAPL"⟩)
      (.success ⟨"p1", "Main"⟩) (.success (.plain [])) (.success (.plain []))
      pWithCurrent rfl⟩

/-! ## Claim C10 -/

/-- C10: a child-level operation invoked while nothing is selected returns a
failure envelope naming the missing selection, issues no remote call and
emits no loading writes, and leaves the entire state — collection, current,
children, error, cache — exactly as it was. -/
theorem guarded_child_ops_noop (symbol notes itemId : String)
    (a : ApiResp WItem) (rr : ApiResp DetailPayload) (nm : Nat) (ni : String)
    (rsp : ApiResp Unit) (s : WState) (hs : s.currentWatchlist = none)
    (ta : ApiResp Txn) (pr : ApiResp Portfolio)
    (hr : ApiResp (ListPayload Holding)) (fr : ApiResp (ListPayload Txn))
    (p : PState) (hp : p.currentPortfolio = none) :
    addStock symbol notes a rr nm ni s = ⟨s, [], .fail "No watchlist selected"⟩ ∧
    removeStock itemId rsp s = ⟨s, [], .fail "No watchlist selected"⟩ ∧
    addTransaction ta pr hr fr p = ⟨p, [], .fail "No portfolio selected"⟩ := by
  refine ⟨?_, ?_, ?_⟩ <;> simp [addStock, removeStock, addTransaction, hs, hp]

/-- C10 witness: the three guarded operations run on freshly mounted states
with nothing selected are exact no-ops with the failure envelope. -/
theorem guarded_child_ops_noop_witness :
    addStock "AAPL" "n" (.success (fabricatedItem "AAPL" "n" ⟨"p", "P"⟩ 0 ""))
        (.failure { message := "x" }) 0 "" wInit
      = ⟨wInit, [], .fail "No watchlist selected"⟩ ∧
    removeStock "c1" (.success ()) wInit
      = ⟨wInit, [], .fail "No watchlist selected"⟩ ∧
    addTransaction (.success ⟨"t1", "p1", "AAPL"⟩) (.failure { message := "x" })
        (.success (.plain [])) (.success (.plain [])) pInit
      = ⟨pInit, [], .fail "No portfolio selected"⟩ :=
  guarded_child_ops_noop "AAPL" "n" "c1"
    (.success (fabricatedItem "AAPL" "n" ⟨"p", "P"⟩ 0 ""))
    (.failure { message := "x" }) 0 "" (.success ()) wInit rfl
    (.success ⟨"t1", "p1", "AAPL"⟩) (.failure { message := "x" })
    (.success (.plain [])) (.success (.plain [])) pInit rfl

end StockDash
